import Mathlib

/-!
Verification development for the labone-python data plane.

This file gives a shallow embedding of the value codec
(`src/labone/core/value.py`), the wildcard path resolver and the mock
emulation state machine (`src/labone/mock/automatic_session_functionality.py`),
and proves or refutes the specified properties against it.

Machine integers are modelled as `Nat`/`Int`; raw byte buffers are modelled
as `List Nat` (each entry one byte); `float64` payloads are carried opaquely
as their 64-bit pattern, since the code never performs floating arithmetic on
them (pure pass-through on encode and decode).
-/

deriving instance DecidableEq for Except

namespace LabOne

/-- Modelled from the spec: `VectorElementType` (from `labone.core.helper`,
not under `src/`). The spec (§3) gives the element-type tag set
`{INT8,UINT8,INT16,UINT16,INT32,UINT32,INT64,UINT64,FLOAT32,FLOAT64,STRING}`;
`STRING` is the special case where the raw bytes are UTF-8 text. -/
inductive VectorElementType
  | int8
  | uint8
  | int16
  | uint16
  | int32
  | uint32
  | int64
  | uint64
  | float32
  | float64
  | string
  deriving DecidableEq

/-- Modelled from the spec: byte width of each element type
(`to_numpy_type` in `labone.core.helper`, not under `src/`); `STRING` has no
numeric width (it is not a numeric array type, spec §3). -/
def elemByteSize : VectorElementType → Option Nat
  | .int8 => some 1
  | .uint8 => some 1
  | .int16 => some 2
  | .uint16 => some 2
  | .int32 => some 4
  | .uint32 => some 4
  | .int64 => some 8
  | .uint64 => some 8
  | .float32 => some 4
  | .float64 => some 8
  | .string => none

/-- Modelled from the spec: `VectorValueType` (from `labone.core.helper`,
not under `src/`). The generic kinds are `VECTOR_DATA` and `BYTE_ARRAY`
(spec §4.1); the device-specific kinds are the per-subsystem framings named
in spec §3 (oscilloscope, demodulator, result-logger); `other` stands for
any further, unrecognized device-specific tag. -/
inductive VectorValueType
  | vectorData
  | byteArray
  | shfScopeData
  | shfDemodulatorData
  | shfResultLoggerData
  | other (tag : Nat)
  deriving DecidableEq

/-- A numpy array as the codec sees it: an element-type tag plus the raw
bytes of its contiguous buffer (`ndarray.tobytes()`). -/
structure NdArray where
  dtype : VectorElementType
  data : List Nat
  deriving DecidableEq

/-- Modelled from the spec: `SHFDemodSample` (from
`labone.core.shf_vector_data`, not under `src/`): a demodulator sample is a
pair of parallel real arrays `{i, q}` (spec §3). -/
structure SHFDemodSample where
  i : NdArray
  q : NdArray
  deriving DecidableEq

/-- Single trigger sample (`labone/core/value.py`, class `TriggerSample`):
seven unsigned integers. -/
structure TriggerSample where
  timestamp : Nat
  sample_tick : Nat
  trigger : Nat
  missed_triggers : Nat
  awg_trigger : Nat
  dio : Nat
  sequence_index : Nat
  deriving DecidableEq

/-- Single counter sample (`labone/core/value.py`, class `CntSample`):
three unsigned integers. -/
structure CntSample where
  timestamp : Nat
  counter : Nat
  trigger : Nat
  deriving DecidableEq

/-- Modelled from the spec: `ExtraHeader` (from
`labone.core.shf_vector_data`, not under `src/`): a fixed-layout record
of device-specific metadata per subsystem variant (spec §3); the exact
field counts are not observable from `src/`, so each variant carries two
unsigned 64-bit metadata fields. -/
inductive ExtraHeader
  | scope (f0 f1 : Nat)
  | demod (f0 f1 : Nat)
  | resultLogger (f0 f1 : Nat)
  deriving DecidableEq

/-- All possible types of values that can be stored in a node
(`labone/core/value.py`, `Value` union): `int | float | str | complex |
np.ndarray | SHFDemodSample | TriggerSample | CntSample | None`, plus
`bytes` which the encoder accepts. -/
inductive Value
  | int64 (n : Int)
  | double (bits : Nat)
  | complexV (re im : Nat)
  | text (s : String)
  | bytesV (data : List Nat)
  | arr (a : NdArray)
  | demodS (d : SHFDemodSample)
  | trigS (t : TriggerSample)
  | cntS (c : CntSample)
  | noneV
  deriving DecidableEq

/-- The capnp `VectorData` struct: framing tag, element-type tag, extra
header info word, and the raw payload bytes. -/
structure VectorData where
  valueType : VectorValueType
  vectorElementType : VectorElementType
  extraHeaderInfo : Nat
  data : List Nat
  deriving DecidableEq

/-- The wire-level tagged union a received capnp `Value` presents to
`_capnp_value_to_python_value` via `which()`. The `unknown` constructor
stands for a reader whose active tag is outside the defined variant set. -/
inductive WireValue
  | int64 (n : Int)
  | double (bits : Nat)
  | complexW (re im : Nat)
  | stringW (s : String)
  | vectorDataW (v : VectorData)
  | cntSampleW (c : CntSample)
  | triggerSampleW (t : TriggerSample)
  | noneW
  | unknown (tag : String)
  deriving DecidableEq

/-- The builder dictionary shapes `_value_from_python_types_dict` can return.
`vectorStruct` is a full `VectorData` struct dictionary; `vectorBytes` is the
bare-bytes form `{"vectorData": value.tobytes()}` the source emits for a
numpy array without extra header (line 353), which carries no element-type
or framing metadata. -/
inductive WireDict
  | int64 (n : Int)
  | double (bits : Nat)
  | complexW (re im : Nat)
  | stringW (s : String)
  | vectorStruct (v : VectorData)
  | vectorBytes (data : List Nat)
  deriving DecidableEq

/-- Error taxonomy of the embedded code paths. `valueError` covers Python
`ValueError` (including the codec's "Unknown capnp type" = the spec's
`UnknownWireType`, raised with the offending tag, and numpy's buffer-size
complaint from `np.frombuffer`), `typeError` covers `TypeError` (numpy's
"cannot interpret as a data type" from `np.issubdtype`), `overflowError`
the out-of-range failure when capnp materializes an `int64` field,
`unicodeDecodeError` Python's `UnicodeDecodeError` from `bytes.decode()`,
`notImplemented` covers `NotImplementedError`, `deliveryError` a failed
subscriber delivery. -/
inductive Err
  | valueError (msg : String)
  | typeError (msg : String)
  | overflowError (msg : String)
  | unicodeDecodeError (msg : String)
  | notImplemented (msg : String)
  | deliveryError (id : Nat)
  deriving DecidableEq

/-- Little-endian serialization of a `Nat` into `k` bytes. -/
def toBytesLE : Nat → Nat → List Nat
  | 0, _ => []
  | k + 1, n => n % 256 :: toBytesLE k (n / 256)

/-- Little-endian deserialization of a byte list into a `Nat`. -/
def ofBytesLE : List Nat → Nat
  | [] => 0
  | b :: bs => b + 256 * ofBytesLE bs

/-- Modelled from the spec: serialization of an extra header (fixed layout
per variant, spec §4.1 encode: "the header is serialized first"). Each
variant serializes its two 64-bit fields little-endian: 16 bytes. -/
def headerBytes : ExtraHeader → List Nat
  | .scope f0 f1 => toBytesLE 8 f0 ++ toBytesLE 8 f1
  | .demod f0 f1 => toBytesLE 8 f0 ++ toBytesLE 8 f1
  | .resultLogger f0 f1 => toBytesLE 8 f0 ++ toBytesLE 8 f1

/-- Modelled from the spec: the device-specific framing tag matching each
extra-header variant (spec §4.1 encode: "replacing the generic framing tag
with the matching device-specific tag"). -/
def headerTag : ExtraHeader → VectorValueType
  | .scope _ _ => .shfScopeData
  | .demod _ _ => .shfDemodulatorData
  | .resultLogger _ _ => .shfResultLoggerData

/-- Modelled from the spec: `get_header_length` (from
`labone.core.shf_vector_data`, not under `src/`): the declared extra-header
length in bytes, read from the `extraHeaderInfo` word as a count of 32-bit
words in the low 16 bits (consistent with
`tests/core/test_annotated_value_from_capnp.py::test_unknown_shf_vector`,
where `extraHeaderInfo = n` makes decode skip `n` 32-bit elements). -/
def get_header_length (v : VectorData) : Nat :=
  v.extraHeaderInfo % 65536 * 4

/-- `np.frombuffer(bytes, dtype)`: reinterpret a raw byte buffer as a
contiguous array of the given element type. Fails (numpy `ValueError`) when
the buffer size is not a multiple of the element size, or when the element
type has no numeric width. -/
def frombuffer (et : VectorElementType) (bytes : List Nat) : Option NdArray :=
  match elemByteSize et with
  | none => none
  | some sz => if bytes.length % sz = 0 then some ⟨et, bytes⟩ else none

/-- Strict UTF-8 decoding (RFC 3629), one step per scalar value: ASCII,
two-byte sequences (leading byte `0xC2..0xDF`), three-byte sequences
(`0xE0..0xEF`, with the usual tightened second-byte ranges that exclude
overlong forms and surrogates) and four-byte sequences (`0xF0..0xF4`,
excluding overlong forms and code points above `U+10FFFF`); any other
sequence is invalid. Fuel decreases once per decoded character. -/
def utf8DecodeAux : Nat → List Nat → Option (List Char)
  | _, [] => some []
  | 0, _ :: _ => none
  | fuel + 1, b :: bs =>
      if b < 128 then
        (utf8DecodeAux fuel bs).map (fun cs => Char.ofNat b :: cs)
      else if 194 ≤ b ∧ b ≤ 223 then
        match bs with
        | b1 :: rest =>
            if 128 ≤ b1 ∧ b1 ≤ 191 then
              (utf8DecodeAux fuel rest).map
                (fun cs => Char.ofNat ((b - 192) * 64 + (b1 - 128)) :: cs)
            else none
        | [] => none
      else if 224 ≤ b ∧ b ≤ 239 then
        match bs with
        | b1 :: b2 :: rest =>
            if (if b = 224 then 160 else 128) ≤ b1 ∧
                b1 ≤ (if b = 237 then 159 else 191) ∧
                128 ≤ b2 ∧ b2 ≤ 191 then
              (utf8DecodeAux fuel rest).map
                (fun cs =>
                  Char.ofNat ((b - 224) * 4096 + (b1 - 128) * 64 + (b2 - 128)) :: cs)
            else none
        | _ => none
      else if 240 ≤ b ∧ b ≤ 244 then
        match bs with
        | b1 :: b2 :: b3 :: rest =>
            if (if b = 240 then 144 else 128) ≤ b1 ∧
                b1 ≤ (if b = 244 then 143 else 191) ∧
                128 ≤ b2 ∧ b2 ≤ 191 ∧ 128 ≤ b3 ∧ b3 ≤ 191 then
              (utf8DecodeAux fuel rest).map
                (fun cs =>
                  Char.ofNat ((b - 240) * 262144 + (b1 - 128) * 4096 +
                    (b2 - 128) * 64 + (b3 - 128)) :: cs)
            else none
        | _ => none
      else none

/-- `bytes.decode()` with Python's default strict error handling: the raw
bytes read as UTF-8 text, or `none` (a `UnicodeDecodeError`) on the first
invalid sequence. -/
def utf8Decode (bs : List Nat) : Option (List Char) :=
  utf8DecodeAux (bs.length + 1) bs

/-- Modelled from the spec: `encode_shf_vector_data_struct` (from
`labone.core.shf_vector_data`, not under `src/`). Per spec §4.1 encode: the
header is serialized first (fixed layout per variant) followed by the raw
element bytes, with the matching device-specific framing tag; a demodulator
sample contributes its two parallel arrays' bytes. `extraHeaderInfo`
declares the 16-byte header as four 32-bit words. A value/header
combination outside the supported pairs fails. -/
def encode_shf_vector_data_struct :
    NdArray ⊕ SHFDemodSample → ExtraHeader → Except Err VectorData
  | .inl a, .scope f0 f1 =>
      .ok ⟨.shfScopeData, a.dtype, 4, headerBytes (.scope f0 f1) ++ a.data⟩
  | .inl a, .resultLogger f0 f1 =>
      .ok ⟨.shfResultLoggerData, a.dtype, 4,
        headerBytes (.resultLogger f0 f1) ++ a.data⟩
  | .inr d, .demod f0 f1 =>
      .ok ⟨.shfDemodulatorData, d.i.dtype, 4,
        headerBytes (.demod f0 f1) ++ (d.i.data ++ d.q.data)⟩
  | _, _ => .error (.valueError "unsupported shf value/header combination")

/-- Modelled from the spec: `parse_shf_vector_data_struct` (from
`labone.core.shf_vector_data`, not under `src/`). Per spec §4.1 decode: a
per-subsystem parser reads the fixed header prefix and produces the matching
`ExtraHeader` variant, then reinterprets the remaining bytes as the declared
element type, splitting into `{i,q}` arrays when the target shape is a
demodulator sample; an unrecognized device-specific tag fails with a
`ValueError` ("Unknown shf vector type"). -/
def parse_shf_vector_data_struct (v : VectorData) :
    Except Err (Value × Option ExtraHeader) :=
  match v.valueType with
  | .shfScopeData =>
      if 16 ≤ v.data.length then
        match frombuffer v.vectorElementType (v.data.drop 16) with
        | some a =>
            .ok (.arr a, some (.scope (ofBytesLE (v.data.take 8))
              (ofBytesLE ((v.data.drop 8).take 8))))
        | none => .error (.valueError "buffer size mismatch")
      else .error (.valueError "missing extra header")
  | .shfResultLoggerData =>
      if 16 ≤ v.data.length then
        match frombuffer v.vectorElementType (v.data.drop 16) with
        | some a =>
            .ok (.arr a, some (.resultLogger (ofBytesLE (v.data.take 8))
              (ofBytesLE ((v.data.drop 8).take 8))))
        | none => .error (.valueError "buffer size mismatch")
      else .error (.valueError "missing extra header")
  | .shfDemodulatorData =>
      if 16 ≤ v.data.length then
        match frombuffer v.vectorElementType ((v.data.drop 16).take
            ((v.data.length - 16) / 2)),
          frombuffer v.vectorElementType ((v.data.drop 16).drop
            ((v.data.length - 16) / 2)) with
        | some ia, some qa =>
            .ok (.demodS ⟨ia, qa⟩, some (.demod (ofBytesLE (v.data.take 8))
              (ofBytesLE ((v.data.drop 8).take 8))))
        | _, _ => .error (.valueError "buffer size mismatch")
      else .error (.valueError "missing extra header")
  | _ => .error (.valueError "Unknown shf vector type")

/-- `_capnp_vector_to_value` (`labone/core/value.py`, lines 196-236): parse a
capnp vector. Generic framing tags decode the raw bytes directly (UTF-8 text
for `STRING` elements — `raw_data.decode()`, which raises
`UnicodeDecodeError` on invalid UTF-8 — else a plain array via
`np.frombuffer`, which raises `ValueError` on a misaligned buffer); a
device-specific tag delegates to `parse_shf_vector_data_struct`, and on its
`ValueError` falls back to skipping the declared header length and decoding
the remainder as a plain array with no extra header. -/
def capnp_vector_to_value (v : VectorData) :
    Except Err (Value × Option ExtraHeader) :=
  if v.valueType = .vectorData ∨ v.valueType = .byteArray then
    if v.vectorElementType = .string then
      match utf8Decode v.data with
      | some cs => .ok (.text (String.mk cs), none)
      | none => .error (.unicodeDecodeError "invalid utf-8 byte sequence")
    else
      match frombuffer v.vectorElementType v.data with
      | some a => .ok (.arr a, none)
      | none => .error (.valueError "buffer size is not a multiple of element size")
  else
    match parse_shf_vector_data_struct v with
    | .ok r => .ok r
    | .error _ =>
        match frombuffer v.vectorElementType (v.data.drop (get_header_length v)) with
        | some a => .ok (.arr a, none)
        | none => .error (.valueError "buffer size is not a multiple of element size")

/-- `_capnp_value_to_python_value` (`labone/core/value.py`, lines 239-271):
dispatch on the wire value's active tag; an unknown tag raises
`ValueError("Unknown capnp type: ...")` (the spec's `UnknownWireType`). -/
def capnp_value_to_python_value (w : WireValue) :
    Except Err (Value × Option ExtraHeader) :=
  match w with
  | .int64 n => .ok (.int64 n, none)
  | .double b => .ok (.double b, none)
  | .complexW re im => .ok (.complexV re im, none)
  | .stringW s => .ok (.text s, none)
  | .vectorDataW v => capnp_vector_to_value v
  | .cntSampleW c => .ok (.cntS c, none)
  | .triggerSampleW t => .ok (.trigS t, none)
  | .noneW => .ok (.noneV, none)
  | .unknown tag => .error (.valueError ("Unknown capnp type: " ++ tag))

/-- Python representation of a node value (`labone/core/value.py`,
class `AnnotatedValue`). -/
structure AnnotatedValue where
  value : Value
  path : String
  timestamp : Option Nat := none
  extra_header : Option ExtraHeader := none
  deriving DecidableEq

/-- `_value_from_python_types_dict` (`labone/core/value.py`, lines 329-404):
build the `Value` dictionary for an annotated value. A numpy array without
extra header returns the bare-bytes `{"vectorData": value.tobytes()}`; one
with an extra header (and a demodulator sample, which requires one) goes
through `encode_shf_vector_data_struct`; `TriggerSample`/`CntSample` raise
`NotImplementedError`; scalars, strings and `bytes` use the type table. An
unsupported type aborts inside the type table: for `None` the very first
probe, `np.issubdtype(type(None), bool)`, raises `TypeError` (numpy cannot
interpret `NoneType` as a data type), so the final `ValueError` at line 403
is never reached. -/
def value_from_python_types_dict (av : AnnotatedValue) : Except Err WireDict :=
  match av.value with
  | .arr a =>
      match av.extra_header with
      | none => .ok (.vectorBytes a.data)
      | some h => (encode_shf_vector_data_struct (.inl a) h).map .vectorStruct
  | .demodS d =>
      match av.extra_header with
      | none => .error (.valueError "SHFDemodSample requires extra_header")
      | some h => (encode_shf_vector_data_struct (.inr d) h).map .vectorStruct
  | .trigS _ => .error (.notImplemented "TriggerSample and CntSample not yet implemented")
  | .cntS _ => .error (.notImplemented "TriggerSample and CntSample not yet implemented")
  | .int64 n => .ok (.int64 n)
  | .double b => .ok (.double b)
  | .complexV re im => .ok (.complexW re im)
  | .text s => .ok (.stringW s)
  | .bytesV b => .ok (.vectorStruct ⟨.byteArray, .uint8, 0, b⟩)
  | .noneV => .error (.typeError "Cannot interpret NoneType as a data type")

/-- Materialization of a builder dictionary into a wire value (capnp
`from_dict` on the reflected `Value` schema). An `int64` field only accepts
integers within the signed 64-bit range (pycapnp raises on out-of-range
assignment — Python ints are unbounded). The bare-bytes vectorData form
does not populate a `VectorData` struct's fields and is rejected by the
capnp layer (type mismatch: the field expects a struct). -/
def wire_of_dict (d : WireDict) : Except Err WireValue :=
  match d with
  | .int64 n =>
      if -(2 ^ 63) ≤ n ∧ n < 2 ^ 63 then .ok (.int64 n)
      else .error (.overflowError "int64 out of range")
  | .double b => .ok (.double b)
  | .complexW re im => .ok (.complexW re im)
  | .stringW s => .ok (.stringW s)
  | .vectorStruct v => .ok (.vectorDataW v)
  | .vectorBytes _ => .error (.valueError "vectorData expects a VectorData struct")

/-- Full round trip: encode an annotated value to a builder dictionary,
materialize it as a wire value, and decode it back. -/
def decodeOfEncode (av : AnnotatedValue) : Except Err (Value × Option ExtraHeader) :=
  match value_from_python_types_dict av with
  | .error e => .error e
  | .ok d =>
      match wire_of_dict d with
      | .error e => .error e
      | .ok w => capnp_value_to_python_value w

/-- The value the round trip is expected to yield: Python `bytes` come back
as the bytewise-equal `uint8` array (a `BYTE_ARRAY` wire vector decodes via
`np.frombuffer`); every other variant comes back as itself. -/
def roundTripTarget : Value → Value
  | .bytesV b => .arr ⟨.uint8, b⟩
  | v => v

/-- Whether the round trip must also restore the extra header (vector-shaped
values carry one; scalars never do). -/
def needsHeader : Value → Bool
  | .arr _ => true
  | .demodS _ => true
  | _ => false

/-- The round-trip property for one value/header pair, as the spec states
it: decoding the wire form produced by encoding yields the value back
(bytewise for vectors, exact for scalars, field-wise for samples), with the
extra header restored for vector-shaped values. -/
def roundTripChecks (v : Value) (eh : Option ExtraHeader) : Bool :=
  match decodeOfEncode ⟨v, "/test/path", none, eh⟩ with
  | .ok (v', eh') =>
      decide (v' = roundTripTarget v) &&
        (if needsHeader v then decide (eh' = eh) else true)
  | .error _ => false

/-- Alignment of an array's buffer with its element width: what
`ndarray.tobytes()` guarantees for a real numpy array. -/
def alignOK (a : NdArray) : Bool :=
  match elemByteSize a.dtype with
  | some sz => decide (a.data.length % sz = 0)
  | none => false

/-- The value/header pairs the source encoder can actually serialize into a
well-formed wire value: scalars (integers within the signed 64-bit range
the capnp `int64` field accepts), text and bytes (any header, which the
encoder ignores for them); an array with a matching array-shaped header; a
demodulator sample with a demodulator header, its parallel arrays agreeing
in element type and byte length. Header fields must fit in 64 bits. -/
def encodableValue : Value → Option ExtraHeader → Bool
  | .int64 n, _ => decide (-(2 ^ 63) ≤ n) && decide (n < 2 ^ 63)
  | .double _, _ => true
  | .complexV _ _, _ => true
  | .text _, _ => true
  | .bytesV _, _ => true
  | .arr a, some (.scope f0 f1) =>
      alignOK a && decide (f0 < 2 ^ 64) && decide (f1 < 2 ^ 64)
  | .arr a, some (.resultLogger f0 f1) =>
      alignOK a && decide (f0 < 2 ^ 64) && decide (f1 < 2 ^ 64)
  | .demodS d, some (.demod f0 f1) =>
      alignOK d.i && alignOK d.q && decide (d.i.dtype = d.q.dtype) &&
        decide (d.i.data.length = d.q.data.length) &&
        decide (f0 < 2 ^ 64) && decide (f1 < 2 ^ 64)
  | _, _ => false

/-!
## Path resolver

`list_nodes` filters the registry keys with `fnmatch` patterns;
`resolve_wildcards_labone` filters candidate nodes with a regex built from
the path expression by `re.escape` plus two textual replacements. The
matchers below are fuel-based (fuel bounded by pattern plus subject length,
each step consumes one of the two) so that they reduce in the kernel.
-/

/-- One step of `fnmatch` glob matching: `*` matches any character sequence
(including `/` and the empty sequence), every other character is literal.
This is `fnmatch.translate` semantics for the patterns the mock constructs
(path expressions, which use no `?` or `[...]` forms), anchored at both ends
as `fnmatch.fnmatch` is. -/
def fnmatchAux : Nat → List Char → List Char → Bool
  | 0, _, _ => false
  | fuel + 1, p, s =>
      match p, s with
      | [], [] => true
      | [], _ :: _ => false
      | '*' :: ps, s =>
          fnmatchAux fuel ps s ||
            (match s with
             | [] => false
             | _ :: ds => fnmatchAux fuel ('*' :: ps) ds)
      | c :: ps, d :: ds => c == d && fnmatchAux fuel ps ds
      | _ :: _, [] => false

/-- `fnmatch.fnmatch pattern subject` for the constructed patterns. -/
def fnmatchB (p s : List Char) : Bool :=
  fnmatchAux (p.length + s.length + 1) p s

/-- The characters `re.escape` (Python ≥ 3.7) escapes: characters that can
have special meaning in a regular expression. -/
def reSpecialChars : List Char :=
  ['(', ')', '[', ']', '\x7b', '\x7d', '?', '*', '+', '-', '|', '^', '$',
   '\\', '.', '&', '~', '#', ' ', '\t', '\n', '\r', '\x0b', '\x0c']

/-- `re.escape` on one character. -/
def escapeChar (c : Char) : List Char :=
  if c ∈ reSpecialChars then ['\\', c] else [c]

/-- `re.escape`: escape every regex-special character. -/
def reEscape (s : List Char) : List Char :=
  (s.map escapeChar).flatten

/-- `str.replace`: leftmost, non-overlapping textual replacement of every
occurrence of `needle` by `repl` (fuel = subject length; each step consumes
at least one subject character for a non-empty needle). -/
def replaceAllAux : Nat → List Char → List Char → List Char → List Char
  | 0, _, _, s => s
  | fuel + 1, needle, repl, s =>
      if needle.isPrefixOf s ∧ needle ≠ [] then
        repl ++ replaceAllAux fuel needle repl (s.drop needle.length)
      else
        match s with
        | [] => []
        | c :: cs => c :: replaceAllAux fuel needle repl cs

/-- `subject.replace(needle, repl)`. -/
def replaceAll (needle repl s : List Char) : List Char :=
  replaceAllAux (s.length + 1) needle repl s

/-- Acceptance of the remaining subject by the appended regex suffix
`(/.*)?$` under `re.match` anchoring: the rest of the subject is either
empty or starts with `/` (then `.*` consumes the remainder). -/
def suffixAccepts (s : List Char) : Bool :=
  match s with
  | [] => true
  | '/' :: _ => true
  | _ => false

/-- Matching of the constructed regex core against a subject, per Python
`re` semantics for the fragment `resolve_wildcards_labone` can build:
escaped literals `\c`, the class-star `[^/]*` (zero or more non-slash
characters, from replacing `/\*/`), the starred slash `/*` (zero or more
`/` characters, from replacing the escaped `/\*` — note `*` here is the
regex quantifier on `/`), plain literal characters, and at pattern end the
appended `(/.*)?$` suffix. -/
def matchCoreAux : Nat → List Char → List Char → Bool
  | 0, _, _ => false
  | fuel + 1, p, s =>
      match p, s with
      | [], s => suffixAccepts s
      | '\\' :: c :: ps, s =>
          (match s with
           | d :: ds => c == d && matchCoreAux fuel ps ds
           | [] => false)
      | '[' :: '^' :: '/' :: ']' :: '*' :: ps, s =>
          matchCoreAux fuel ps s ||
            (match s with
             | d :: ds => d != '/' && matchCoreAux fuel ('[' :: '^' :: '/' :: ']' :: '*' :: ps) ds
             | [] => false)
      | '/' :: '*' :: ps, s =>
          matchCoreAux fuel ps s ||
            (match s with
             | d :: ds => d == '/' && matchCoreAux fuel ('/' :: '*' :: ps) ds
             | [] => false)
      | c :: ps, d :: ds => c == d && matchCoreAux fuel ps ds
      | _ :: _, [] => false

/-- `node_raw_regex.match(subject)` for the constructed pattern
`core ++ "(/.*)?$"`. -/
def matchCore (p s : List Char) : Bool :=
  matchCoreAux (p.length + s.length + 1) p s

/-- `resolve_wildcards_labone`
(`labone/mock/automatic_session_functionality.py`, lines 264-280): escape
the path, rewrite `/\*/` to `/[^/]*/` and the remaining (trailing) `/\*` to
`/*`, append `(/.*)?$`, and keep the nodes the resulting regex matches. -/
def resolve_wildcards_labone (path : String) (nodes : List String) : List String :=
  let node_raw := reEscape path.data
  let node_raw := replaceAll "/\\*/".data "/[^/]*/".data node_raw
  let node_raw := replaceAll "/\\*".data "/*".data node_raw
  nodes.filter (fun n => matchCore node_raw n.data)

/-!
## Emulation state machine

`AutomaticSessionFunctionality`: registry of known paths, in-memory value
store, per-path subscriber handles, and a monotonic clock supplying
timestamps (one tick per `_get_timestamp` call).
-/

/-- A subscriber's streaming handle: an opaque delivery target whose
`sendValues` call either succeeds or fails. -/
structure StreamingHandle where
  id : Nat
  fails : Bool
  deriving DecidableEq

/-- The capnp response dictionary `set` sends to subscribers:
`{"value": ..., "metadata": {"path": ..., "timestamp": ...}}`. -/
structure CapnpResponse where
  value : WireDict
  path : String
  timestamp : Option Nat
  deriving DecidableEq

/-- `handle.sendValues([capnp_response])`: delivery of one update to one
subscriber; the delivery attempt either succeeds or raises. -/
def sendValues (h : StreamingHandle) (_msg : CapnpResponse) : Except Err Unit :=
  if h.fails then .error (.deliveryError h.id) else .ok ()

/-- The first exception among a list of completed delivery attempts (the
one `asyncio.gather` re-raises after scheduling all of them). -/
def firstError : List (Except Err Unit) → Option Err
  | [] => none
  | .error e :: _ => some e
  | .ok _ :: rest => firstError rest

/-- Python `dict.get` on the value store (association list in insertion
order, keys unique). -/
def memGet (m : List (String × Value)) (k : String) : Option Value :=
  match m with
  | [] => none
  | (k', v) :: rest => if k' = k then some v else memGet rest k

/-- Python `dict.__setitem__` on the value store: update in place if the key
exists, else append. -/
def memSet (m : List (String × Value)) (k : String) (v : Value) :
    List (String × Value) :=
  match m with
  | [] => [(k, v)]
  | (k', v') :: rest =>
      if k' = k then (k', v) :: rest else (k', v') :: memSet rest k v

/-- `dict.get(path, [])` on the subscription table. -/
def handlesGet (m : List (String × List StreamingHandle)) (k : String) :
    List StreamingHandle :=
  match m with
  | [] => []
  | (k', hs) :: rest => if k' = k then hs else handlesGet rest k

/-- Registering one more handle under a path in the subscription table. -/
def handlesAdd (m : List (String × List StreamingHandle)) (k : String)
    (h : StreamingHandle) : List (String × List StreamingHandle) :=
  match m with
  | [] => [(k, [h])]
  | (k', hs) :: rest =>
      if k' = k then (k', hs ++ [h]) :: rest else (k', hs) :: handlesAdd rest k h

/-- State of `AutomaticSessionFunctionality`: the known tree structure
(`paths_to_info`; the node-info payloads do not influence any modelled
operation, so only the keys are carried), the value store (`_memory`), the
subscriptions (`_path_to_streaming_handles`), and the monotonic clock
backing `_get_timestamp`. -/
structure MockState where
  paths_to_info : List String
  memory : List (String × Value)
  handles : List (String × List StreamingHandle)
  clock : Nat
  deriving DecidableEq

/-- `AutomaticSessionFunctionality.get` (lines 140-157): look the path up in
the internal dictionary, defaulting to the placeholder string
`"not found in mock memory"`, and stamp a fresh timestamp. It consults only
`_memory`, never `paths_to_info`, and cannot fail. -/
def get (s : MockState) (path : String) : MockState × AnnotatedValue :=
  let value := (memGet s.memory path).getD (.text "not found in mock memory")
  ({ s with clock := s.clock + 1 }, ⟨value, path, some s.clock, none⟩)

/-- `AutomaticSessionFunctionality.set` (lines 189-220): store the value
(unconditionally, no registry check), stamp a fresh timestamp, build the
capnp response via `_value_from_python_types_dict` (which may raise), then
deliver it to every handle subscribed to that exact path via
`asyncio.gather` — every delivery is attempted, and the first raised
exception is what the caller sees. The store mutation precedes all of this
and is never rolled back. -/
def set (s : MockState) (value : AnnotatedValue) :
    MockState × Except Err AnnotatedValue :=
  let memory' := memSet s.memory value.path value.value
  let response : AnnotatedValue := { value with timestamp := some s.clock }
  let s' : MockState := { s with memory := memory', clock := s.clock + 1 }
  match value_from_python_types_dict response with
  | .error e => (s', .error e)
  | .ok w =>
      let capnp_response : CapnpResponse := ⟨w, response.path, response.timestamp⟩
      let results := (handlesGet s.handles value.path).map
        (fun h => sendValues h capnp_response)
      match firstError results with
      | some e => (s', .error e)
      | none => (s', .ok response)

/-- `AutomaticSessionFunctionality.list_nodes` (lines 113-138): empty path
lists every known path; otherwise a `"/*"` is appended unless the expression
already ends in `*`, and the registry keys are filtered with `fnmatch`. -/
def list_nodes (s : MockState) (path : String) : List String :=
  if path = "" then s.paths_to_info
  else
    let pat : List Char :=
      if path.data.getLast? ≠ some '*' then path.data ++ ['/', '*'] else path.data
    s.paths_to_info.filter (fun k => fnmatchB pat k.data)

/-- Sequential `get` over a list of resolved paths (the list comprehension
of awaits in `get_with_expression`). -/
def getMany : MockState → List String → MockState × List AnnotatedValue
  | s, [] => (s, [])
  | s, p :: ps =>
      let r := get s p
      let rest := getMany r.1 ps
      (rest.1, r.2 :: rest.2)

/-- `AutomaticSessionFunctionality.get_with_expression` (lines 159-187):
`get` once per node resolved from the expression. -/
def get_with_expression (s : MockState) (path_expression : String) :
    MockState × List AnnotatedValue :=
  getMany s (resolve_wildcards_labone path_expression (list_nodes s path_expression))

/-- Sequential `set` over a list of resolved paths (the list comprehension
of awaits in `set_with_expression`); a raise aborts the remaining sets. -/
def setMany : MockState → Value → List String → MockState × Except Err (List AnnotatedValue)
  | s, _, [] => (s, .ok [])
  | s, v, p :: ps =>
      match set s ⟨v, p, none, none⟩ with
      | (s', .error e) => (s', .error e)
      | (s', .ok r) =>
          match setMany s' v ps with
          | (s'', .error e) => (s'', .error e)
          | (s'', .ok rs) => (s'', .ok (r :: rs))

/-- `AutomaticSessionFunctionality.set_with_expression` (lines 222-240):
`set` once per node resolved from the expression, with the expression's
value. -/
def set_with_expression (s : MockState) (value : AnnotatedValue) :
    MockState × Except Err (List AnnotatedValue) :=
  setMany s value.value (resolve_wildcards_labone value.path (list_nodes s value.path))

/-- `AutomaticSessionFunctionality.subscribe_logic` (lines 242-261): store
the handle under the path. -/
def subscribe_logic (s : MockState) (path : String) (streaming_handle : StreamingHandle) :
    MockState :=
  { s with handles := handlesAdd s.handles path streaming_handle }

/-- The node set an expression operates on: `resolve_wildcards_labone`
applied to the `list_nodes` answer for the expression, exactly as
`get_with_expression` and `set_with_expression` compute it. -/
def matchExpression (s : MockState) (expr : String) : List String :=
  resolve_wildcards_labone expr (list_nodes s expr)

/-!
## Test fixtures

The registry and stored state used by the spec's §8 properties (and by
`tests/mock/test_automatic_mock_functionality.py`):
`{/a/b/c:1, /a/b/d:2, /a/x:3, /a/x/y:4, /b:5}`.
-/

/-- The five-path registry with its stored values, all subscribers empty. -/
def testState : MockState where
  paths_to_info := ["/a/b/c", "/a/b/d", "/a/x", "/a/x/y", "/b"]
  memory := [("/a/b/c", .int64 1), ("/a/b/d", .int64 2), ("/a/x", .int64 3),
    ("/a/x/y", .int64 4), ("/b", .int64 5)]
  handles := []
  clock := 10

/-- A one-path registry `{"/a/b"}` with nothing stored. -/
def smallState : MockState where
  paths_to_info := ["/a/b"]
  memory := []
  handles := []
  clock := 0

/-- A one-path registry `{"/a/b"}` with one subscriber on `/a/b` whose
delivery fails. -/
def failState : MockState where
  paths_to_info := ["/a/b"]
  memory := []
  handles := [("/a/b", [⟨7, true⟩])]
  clock := 0

/-- Well-formedness of a received vector payload: its raw bytes are
consistent with the element type the peer declared (valid UTF-8 for
`STRING` elements, otherwise a whole number of elements, in whichever
branch of the decoder the framing tag selects). Wire values produced by a
real peer satisfy this by construction. -/
def wellFormedVector (v : VectorData) : Bool :=
  if v.valueType = .vectorData ∨ v.valueType = .byteArray then
    if v.vectorElementType = .string then (utf8Decode v.data).isSome
    else
      match elemByteSize v.vectorElementType with
      | some sz => decide (v.data.length % sz = 0)
      | none => false
  else
    match parse_shf_vector_data_struct v with
    | .ok _ => true
    | .error _ =>
        match elemByteSize v.vectorElementType with
        | some sz => decide ((v.data.drop (get_header_length v)).length % sz = 0)
        | none => false

/-- Well-formedness of a received wire value: vector payloads must be
well-formed; every other variant carries no constraint. -/
def wellFormedWire : WireValue → Bool
  | .vectorDataW v => wellFormedVector v
  | _ => true

end LabOne

namespace LabOne

/-!
## Helper lemmas
-/

theorem length_toBytesLE (k n : Nat) : (toBytesLE k n).length = k := by
  induction k generalizing n with
  | zero => rfl
  | succ k ih => simp [toBytesLE, ih]

theorem ofBytesLE_toBytesLE (k n : Nat) (h : n < 256 ^ k) :
    ofBytesLE (toBytesLE k n) = n := by
  induction k generalizing n with
  | zero => simp [toBytesLE, ofBytesLE]; omega
  | succ k ih =>
      simp only [toBytesLE, ofBytesLE]
      rw [ih (n / 256) (by
        have : 256 ^ (k + 1) = 256 ^ k * 256 := by ring
        omega)]
      omega

theorem memGet_memSet_self (m : List (String × Value)) (k : String) (v : Value) :
    memGet (memSet m k v) k = some v := by
  induction m with
  | nil => simp [memSet, memGet]
  | cons p rest ih =>
      obtain ⟨k', v'⟩ := p
      by_cases h : k' = k
      · simp [memSet, memGet, h]
      · simp [memSet, memGet, h, ih]

/-- The state `set` leaves behind is the same in every branch: the store
mutation and the clock tick, regardless of encoding or delivery outcome. -/
theorem set_fst (s : MockState) (av : AnnotatedValue) :
    (set s av).1 =
      { s with memory := memSet s.memory av.path av.value, clock := s.clock + 1 } := by
  simp only [set]
  split
  · rfl
  · split <;> rfl

theorem take_len_append {α : Type} (l₁ l₂ : List α) (n : Nat)
    (h : l₁.length = n) : (l₁ ++ l₂).take n = l₁ := by
  subst h
  induction l₁ with
  | nil => rfl
  | cons a l ih => simp [ih]

theorem drop_len_append {α : Type} (l₁ l₂ : List α) (n : Nat)
    (h : l₁.length = n) : (l₁ ++ l₂).drop n = l₂ := by
  subst h
  induction l₁ with
  | nil => rfl
  | cons a l ih => simp [ih]

theorem headerBytes_sixteen (h : ExtraHeader) : (headerBytes h).length = 16 := by
  cases h <;> simp [headerBytes, length_toBytesLE]

theorem alignOK_spec (a : NdArray) (h : alignOK a = true) :
    ∃ sz, elemByteSize a.dtype = some sz ∧ a.data.length % sz = 0 := by
  unfold alignOK at h
  cases hsz : elemByteSize a.dtype with
  | none => rw [hsz] at h; exact absurd h (by simp)
  | some sz => rw [hsz] at h; exact ⟨sz, rfl, by simpa using h⟩

theorem frombuffer_of_align (a : NdArray) (h : alignOK a = true) :
    frombuffer a.dtype a.data = some a := by
  obtain ⟨sz, h1, h2⟩ := alignOK_spec a h
  unfold frombuffer
  rw [h1]
  simp [h2]

/-- Decoding a scope-framed vector produced by the shf encoder restores the
array and its header. -/
theorem capnp_vector_to_value_scope (a : NdArray) (f0 f1 : Nat)
    (hal : alignOK a = true) (h0 : f0 < 2 ^ 64) (h1 : f1 < 2 ^ 64) :
    capnp_vector_to_value
        ⟨.shfScopeData, a.dtype, 4, headerBytes (.scope f0 f1) ++ a.data⟩ =
      .ok (.arr a, some (.scope f0 f1)) := by
  have h256 : (256 : Nat) ^ 8 = 2 ^ 64 := by norm_num
  have htake8 : ((headerBytes (.scope f0 f1) ++ a.data).take 8 : List Nat) =
      toBytesLE 8 f0 := by
    show ((toBytesLE 8 f0 ++ toBytesLE 8 f1) ++ a.data).take 8 = _
    rw [List.append_assoc]
    exact take_len_append _ _ 8 (length_toBytesLE 8 f0)
  have hdrop8 : (((headerBytes (.scope f0 f1) ++ a.data).drop 8).take 8 : List Nat) =
      toBytesLE 8 f1 := by
    show (((toBytesLE 8 f0 ++ toBytesLE 8 f1) ++ a.data).drop 8).take 8 = _
    rw [List.append_assoc, drop_len_append _ _ 8 (length_toBytesLE 8 f0)]
    exact take_len_append _ _ 8 (length_toBytesLE 8 f1)
  have hdrop16 : ((headerBytes (.scope f0 f1) ++ a.data).drop 16 : List Nat) = a.data :=
    drop_len_append _ _ 16 (headerBytes_sixteen _)
  have hlen : ((headerBytes (.scope f0 f1) ++ a.data).length : Nat) =
      16 + a.data.length := by
    simp [headerBytes_sixteen]
  have hparse : parse_shf_vector_data_struct
      ⟨.shfScopeData, a.dtype, 4, headerBytes (.scope f0 f1) ++ a.data⟩ =
      .ok (.arr a, some (.scope f0 f1)) := by
    simp only [parse_shf_vector_data_struct]
    rw [if_pos (by rw [hlen]; omega)]
    rw [hdrop16, frombuffer_of_align a hal, htake8, hdrop8]
    rw [ofBytesLE_toBytesLE 8 f0 (by rw [h256]; exact h0)]
    rw [ofBytesLE_toBytesLE 8 f1 (by rw [h256]; exact h1)]
  unfold capnp_vector_to_value
  rw [if_neg (by simp), hparse]

/-- Decoding a result-logger-framed vector produced by the shf encoder
restores the array and its header. -/
theorem capnp_vector_to_value_resultLogger (a : NdArray) (f0 f1 : Nat)
    (hal : alignOK a = true) (h0 : f0 < 2 ^ 64) (h1 : f1 < 2 ^ 64) :
    capnp_vector_to_value
        ⟨.shfResultLoggerData, a.dtype, 4, headerBytes (.resultLogger f0 f1) ++ a.data⟩ =
      .ok (.arr a, some (.resultLogger f0 f1)) := by
  have h256 : (256 : Nat) ^ 8 = 2 ^ 64 := by norm_num
  have htake8 : ((headerBytes (.resultLogger f0 f1) ++ a.data).take 8 : List Nat) =
      toBytesLE 8 f0 := by
    show ((toBytesLE 8 f0 ++ toBytesLE 8 f1) ++ a.data).take 8 = _
    rw [List.append_assoc]
    exact take_len_append _ _ 8 (length_toBytesLE 8 f0)
  have hdrop8 : (((headerBytes (.resultLogger f0 f1) ++ a.data).drop 8).take 8 : List Nat) =
      toBytesLE 8 f1 := by
    show (((toBytesLE 8 f0 ++ toBytesLE 8 f1) ++ a.data).drop 8).take 8 = _
    rw [List.append_assoc, drop_len_append _ _ 8 (length_toBytesLE 8 f0)]
    exact take_len_append _ _ 8 (length_toBytesLE 8 f1)
  have hdrop16 : ((headerBytes (.resultLogger f0 f1) ++ a.data).drop 16 : List Nat) = a.data :=
    drop_len_append _ _ 16 (headerBytes_sixteen _)
  have hlen : ((headerBytes (.resultLogger f0 f1) ++ a.data).length : Nat) =
      16 + a.data.length := by
    simp [headerBytes_sixteen]
  have hparse : parse_shf_vector_data_struct
      ⟨.shfResultLoggerData, a.dtype, 4, headerBytes (.resultLogger f0 f1) ++ a.data⟩ =
      .ok (.arr a, some (.resultLogger f0 f1)) := by
    simp only [parse_shf_vector_data_struct]
    rw [if_pos (by rw [hlen]; omega)]
    rw [hdrop16, frombuffer_of_align a hal, htake8, hdrop8]
    rw [ofBytesLE_toBytesLE 8 f0 (by rw [h256]; exact h0)]
    rw [ofBytesLE_toBytesLE 8 f1 (by rw [h256]; exact h1)]
  unfold capnp_vector_to_value
  rw [if_neg (by simp), hparse]

/-- Decoding a demodulator-framed vector produced by the shf encoder
restores the sample (its two parallel arrays) and its header. -/
theorem capnp_vector_to_value_demod (d : SHFDemodSample) (f0 f1 : Nat)
    (hali : alignOK d.i = true) (halq : alignOK d.q = true)
    (hdt : d.i.dtype = d.q.dtype) (hql : d.q.data.length = d.i.data.length)
    (h0 : f0 < 2 ^ 64) (h1 : f1 < 2 ^ 64) :
    capnp_vector_to_value
        ⟨.shfDemodulatorData, d.i.dtype, 4,
          headerBytes (.demod f0 f1) ++ (d.i.data ++ d.q.data)⟩ =
      .ok (.demodS d, some (.demod f0 f1)) := by
  have h256 : (256 : Nat) ^ 8 = 2 ^ 64 := by norm_num
  have htake8 : ((headerBytes (.demod f0 f1) ++ (d.i.data ++ d.q.data)).take 8 : List Nat) =
      toBytesLE 8 f0 := by
    show ((toBytesLE 8 f0 ++ toBytesLE 8 f1) ++ _).take 8 = _
    rw [List.append_assoc]
    exact take_len_append _ _ 8 (length_toBytesLE 8 f0)
  have hdrop8 : (((headerBytes (.demod f0 f1) ++ (d.i.data ++ d.q.data)).drop 8).take 8 :
      List Nat) = toBytesLE 8 f1 := by
    show (((toBytesLE 8 f0 ++ toBytesLE 8 f1) ++ _).drop 8).take 8 = _
    rw [List.append_assoc, drop_len_append _ _ 8 (length_toBytesLE 8 f0)]
    exact take_len_append _ _ 8 (length_toBytesLE 8 f1)
  have hdrop16 : ((headerBytes (.demod f0 f1) ++ (d.i.data ++ d.q.data)).drop 16 :
      List Nat) = d.i.data ++ d.q.data :=
    drop_len_append _ _ 16 (headerBytes_sixteen _)
  have hlen : ((headerBytes (.demod f0 f1) ++ (d.i.data ++ d.q.data)).length : Nat) =
      16 + (d.i.data.length + d.q.data.length) := by
    simp [headerBytes_sixteen]
  have hhalf : (16 + (d.i.data.length + d.q.data.length) - 16) / 2 =
      d.i.data.length := by omega
  have htakeHalf : (d.i.data ++ d.q.data).take d.i.data.length = d.i.data :=
    take_len_append _ _ _ rfl
  have hdropHalf : (d.i.data ++ d.q.data).drop d.i.data.length = d.q.data :=
    drop_len_append _ _ _ rfl
  have hparse : parse_shf_vector_data_struct
      ⟨.shfDemodulatorData, d.i.dtype, 4,
        headerBytes (.demod f0 f1) ++ (d.i.data ++ d.q.data)⟩ =
      .ok (.demodS d, some (.demod f0 f1)) := by
    simp only [parse_shf_vector_data_struct]
    rw [if_pos (by rw [hlen]; omega)]
    rw [hdrop16, hlen, hhalf, htakeHalf, hdropHalf, frombuffer_of_align d.i hali,
      hdt, frombuffer_of_align d.q halq, htake8, hdrop8]
    rw [ofBytesLE_toBytesLE 8 f0 (by rw [h256]; exact h0)]
    rw [ofBytesLE_toBytesLE 8 f1 (by rw [h256]; exact h1)]
  unfold capnp_vector_to_value
  rw [if_neg (by simp), hparse]

end LabOne

namespace LabOne

/-!
## Claim theorems
-/

/-- C2 (divergence evidence): on the five-path registry, the expression
`"/a/b/c"` — exactly one registered concrete leaf path — resolves to ZERO
nodes, because `list_nodes` turns it into the fnmatch pattern `"/a/b/c/*"`,
which no registered path satisfies; `get_with_expression` therefore returns
the empty list instead of operating on exactly that node. The claim (and
`test_get_with_expression`, which expects the value set `{1}` for this
expression) says it must operate on exactly `/a/b/c`. -/
theorem exact_leaf_expression_resolves_to_zero_nodes :
    matchExpression testState "/a/b/c" = [] ∧
      (get_with_expression testState "/a/b/c").2 = [] ∧
      (set_with_expression testState ⟨.int64 7, "/a/b/c", none, none⟩).1.memory =
        testState.memory := by
  refine ⟨by decide, by decide, by decide⟩

/-- C3 (divergence evidence): on the registry `{"/a/b"}`, `get` of the
unregistered path `"/a/c"` does not fail — it silently returns the
placeholder value `"not found in mock memory"` — and `set` addressed to the
unregistered path `"/a/c"` silently stores the value and acknowledges it.
The claim (and `test_cannot_get_outside_of_tree_structure` /
`test_cannot_set_outside_of_tree_structure`) says both must fail with
`InvalidPathError`. -/
theorem unregistered_path_get_set_silently_succeed :
    (get smallState "/a/c").2 =
        ⟨.text "not found in mock memory", "/a/c", some 0, none⟩ ∧
      (set smallState ⟨.int64 123, "/a/c", none, none⟩).1.memory =
        [("/a/c", .int64 123)] ∧
      (set smallState ⟨.int64 123, "/a/c", none, none⟩).2 =
        .ok ⟨.int64 123, "/a/c", some 0, none⟩ := by
  refine ⟨by decide, by decide, by decide⟩

/-- C4 (divergence evidence): on the five-path registry, matching `"/a"`
does yield the four `/a/...` paths as claimed, but matching `"/a/x"` yields
only the descendant `"/a/x/y"` — the exact registered path `/a/x` itself is
dropped (its fnmatch pattern `"/a/x/*"` excludes it) — and matching `"*"`
yields NOTHING, because `re.escape` turns the bare `*` into the regex
`\*(/.*)?$`, which matches no absolute path. The claim (and
`test_get_with_expression`) expects `{/a/x, /a/x/y}` and all five paths
respectively. -/
theorem wildcard_match_drops_exact_path_and_star_matches_nothing :
    matchExpression testState "/a" = ["/a/b/c", "/a/b/d", "/a/x", "/a/x/y"] ∧
      matchExpression testState "/a/x" = ["/a/x/y"] ∧
      matchExpression testState "*" = [] := by
  refine ⟨by decide, by decide, by decide⟩

/-- C5: starting from stored state `{/a/b/c:1, /a/b/d:2, /a/x:3, /a/x/y:4,
/b:5}`, `set_with_expression` with expression `"/a"` and value `7` leaves
the store in exactly the state `{/a/b/c:7, /a/b/d:7, /a/x:7, /a/x/y:7,
/b:5}` — the non-matching path `/b` keeps its previous value — and the call
succeeds with one acknowledgment per written path. -/
theorem set_with_expression_fanout_state :
    (set_with_expression testState ⟨.int64 7, "/a", none, none⟩).1.memory =
        [("/a/b/c", .int64 7), ("/a/b/d", .int64 7), ("/a/x", .int64 7),
          ("/a/x/y", .int64 7), ("/b", .int64 5)] ∧
      (set_with_expression testState ⟨.int64 7, "/a", none, none⟩).2 =
        .ok [⟨.int64 7, "/a/b/c", some 10, none⟩, ⟨.int64 7, "/a/b/d", some 11, none⟩,
          ⟨.int64 7, "/a/x", some 12, none⟩, ⟨.int64 7, "/a/x/y", some 13, none⟩] := by
  refine ⟨by decide, by decide⟩

set_option maxRecDepth 4000 in
/-- C1 (counterexample): the round trip fails as stated for three of the
claimed variants, for plain numeric vectors, and for out-of-range integers:
the encoder raises `NotImplementedError` for counter and trigger samples;
for the empty value the very first type-table probe,
`np.issubdtype(type(None), bool)`, raises `TypeError` (numpy cannot
interpret `NoneType` as a data type); for a numpy array without extra
header it emits the bare-bytes wire dictionary
`{"vectorData": value.tobytes()}`, which carries no element-type or framing
metadata and cannot populate the `VectorData` struct the decoder reads; and
an integer outside the signed 64-bit range (such as `2^100`) passes the
encoder but cannot be materialized into the capnp `int64` field. -/
theorem roundtrip_fails_for_samples_empty_and_bare_arrays :
    roundTripChecks (.cntS ⟨1, 2, 3⟩) none = false ∧
      roundTripChecks (.trigS ⟨1, 2, 3, 4, 5, 6, 7⟩) none = false ∧
      roundTripChecks .noneV none = false ∧
      roundTripChecks (.arr ⟨.uint32, [1, 0, 0, 0]⟩) none = false ∧
      roundTripChecks (.int64 (2 ^ 100)) none = false ∧
      value_from_python_types_dict ⟨.cntS ⟨1, 2, 3⟩, "/test/path", none, none⟩ =
        .error (.notImplemented "TriggerSample and CntSample not yet implemented") ∧
      value_from_python_types_dict ⟨.noneV, "/test/path", none, none⟩ =
        .error (.typeError "Cannot interpret NoneType as a data type") ∧
      value_from_python_types_dict
          ⟨.arr ⟨.uint32, [1, 0, 0, 0]⟩, "/test/path", none, none⟩ =
        .ok (.vectorBytes [1, 0, 0, 0]) ∧
      wire_of_dict (.int64 (2 ^ 100)) = .error (.overflowError "int64 out of range") := by
  refine ⟨by decide, by decide, by decide, by decide, by decide, by decide, by decide,
    by decide, by decide⟩

/-- C1 (amended): for every value/header pair the source encoder can
actually serialize — integers within the signed 64-bit range the capnp
`int64` field accepts, floats, complex numbers, text, bytes (bytewise,
returning as a `uint8` array), numeric vectors with a matching
device-specific extra header, and demodulator samples with their header —
decoding the wire form produced by encoding yields the value back, with the
header restored for vector-shaped values. -/
theorem roundtrip_holds_for_encodable_values (v : Value) (eh : Option ExtraHeader)
    (h : encodableValue v eh = true) : roundTripChecks v eh = true := by
  cases v with
  | int64 n =>
      simp only [encodableValue, Bool.and_eq_true, decide_eq_true_eq] at h
      obtain ⟨h0, h1⟩ := h
      have hw : wire_of_dict (.int64 n) = .ok (.int64 n) := by
        show (if -(2 ^ 63) ≤ n ∧ n < 2 ^ 63 then Except.ok (WireValue.int64 n)
          else Except.error (Err.overflowError "int64 out of range")) = .ok (.int64 n)
        rw [if_pos ⟨h0, h1⟩]
      simp [roundTripChecks, decodeOfEncode, value_from_python_types_dict,
        hw, capnp_value_to_python_value, roundTripTarget, needsHeader]
  | double b =>
      simp [roundTripChecks, decodeOfEncode, value_from_python_types_dict,
        wire_of_dict, capnp_value_to_python_value, roundTripTarget, needsHeader]
  | complexV re im =>
      simp [roundTripChecks, decodeOfEncode, value_from_python_types_dict,
        wire_of_dict, capnp_value_to_python_value, roundTripTarget, needsHeader]
  | text s =>
      simp [roundTripChecks, decodeOfEncode, value_from_python_types_dict,
        wire_of_dict, capnp_value_to_python_value, roundTripTarget, needsHeader]
  | bytesV b =>
      simp [roundTripChecks, decodeOfEncode, value_from_python_types_dict,
        wire_of_dict, capnp_value_to_python_value, capnp_vector_to_value,
        frombuffer, elemByteSize, Nat.mod_one, roundTripTarget, needsHeader]
  | arr a =>
      cases eh with
      | none => simp [encodableValue] at h
      | some hd =>
          cases hd with
          | demod f0 f1 => simp [encodableValue] at h
          | scope f0 f1 =>
              simp only [encodableValue, Bool.and_eq_true, decide_eq_true_eq] at h
              obtain ⟨⟨hal, h0⟩, h1⟩ := h
              have hdec := capnp_vector_to_value_scope a f0 f1 hal h0 h1
              simp [roundTripChecks, decodeOfEncode, value_from_python_types_dict,
                encode_shf_vector_data_struct, Except.map, wire_of_dict,
                capnp_value_to_python_value, hdec, roundTripTarget, needsHeader]
          | resultLogger f0 f1 =>
              simp only [encodableValue, Bool.and_eq_true, decide_eq_true_eq] at h
              obtain ⟨⟨hal, h0⟩, h1⟩ := h
              have hdec := capnp_vector_to_value_resultLogger a f0 f1 hal h0 h1
              simp [roundTripChecks, decodeOfEncode, value_from_python_types_dict,
                encode_shf_vector_data_struct, Except.map, wire_of_dict,
                capnp_value_to_python_value, hdec, roundTripTarget, needsHeader]
  | demodS d =>
      cases eh with
      | none => simp [encodableValue] at h
      | some hd =>
          cases hd with
          | scope f0 f1 => simp [encodableValue] at h
          | resultLogger f0 f1 => simp [encodableValue] at h
          | demod f0 f1 =>
              simp only [encodableValue, Bool.and_eq_true, decide_eq_true_eq] at h
              obtain ⟨⟨⟨⟨⟨hali, halq⟩, hdt⟩, hlen⟩, h0⟩, h1⟩ := h
              have hdec := capnp_vector_to_value_demod d f0 f1 hali halq hdt
                hlen.symm h0 h1
              simp [roundTripChecks, decodeOfEncode, value_from_python_types_dict,
                encode_shf_vector_data_struct, Except.map, wire_of_dict,
                capnp_value_to_python_value, hdec, roundTripTarget, needsHeader]
  | trigS t => simp [encodableValue] at h
  | cntS c => simp [encodableValue] at h
  | noneV => simp [encodableValue] at h

/-- C1 witness: a `uint32` array with a scope header, and the scalar `5`,
both survive the round trip. -/
theorem roundtrip_holds_for_encodable_values_witness :
    encodableValue (.arr ⟨.uint32, [1, 0, 0, 0]⟩) (some (.scope 3 4)) = true ∧
      roundTripChecks (.arr ⟨.uint32, [1, 0, 0, 0]⟩) (some (.scope 3 4)) = true :=
  ⟨by decide,
    roundtrip_holds_for_encodable_values (.arr ⟨.uint32, [1, 0, 0, 0]⟩)
      (some (.scope 3 4)) (by decide)⟩

/-- C6: a vector whose framing tag is neither generic (`VECTOR_DATA`,
`BYTE_ARRAY`) nor a recognized device-specific kind decodes without failing:
the declared header length is skipped, the remaining bytes come back as a
plain numeric array of the declared element type, and no extra header is
returned — provided the declared element type is numeric and the remaining
bytes are a whole number of elements. -/
theorem unrecognized_vector_framing_degrades (v : VectorData) (tag sz : Nat)
    (htag : v.valueType = .other tag)
    (hsz : elemByteSize v.vectorElementType = some sz)
    (hal : (v.data.drop (get_header_length v)).length % sz = 0) :
    capnp_vector_to_value v =
      .ok (.arr ⟨v.vectorElementType, v.data.drop (get_header_length v)⟩, none) := by
  have hparse : parse_shf_vector_data_struct v =
      .error (.valueError "Unknown shf vector type") := by
    unfold parse_shf_vector_data_struct
    rw [htag]
  unfold capnp_vector_to_value
  rw [if_neg (by rw [htag]; simp), hparse]
  unfold frombuffer
  rw [hsz]
  simp only [List.length_drop] at hal
  simp [hal]

/-- C6 witness: the framing tag `69` with `UINT32` elements and a declared
two-word header over sixteen bytes decodes to the last eight bytes as a
plain `UINT32` array with no extra header. -/
theorem unrecognized_vector_framing_degrades_witness :
    (⟨.other 69, .uint32, 2, List.range 16⟩ : VectorData).valueType = .other 69 ∧
      elemByteSize .uint32 = some 4 ∧
      ((List.range 16).drop (get_header_length ⟨.other 69, .uint32, 2, List.range 16⟩)).length % 4 = 0 ∧
      capnp_vector_to_value ⟨.other 69, .uint32, 2, List.range 16⟩ =
        .ok (.arr ⟨.uint32, [8, 9, 10, 11, 12, 13, 14, 15]⟩, none) :=
  ⟨rfl, rfl, by decide,
    unrecognized_vector_framing_degrades ⟨.other 69, .uint32, 2, List.range 16⟩ 69 4
      rfl rfl (by decide)⟩

/-- Decoding a well-formed vector payload never fails, whatever its framing
tag: either the generic branch, a successful device-specific parse, or the
graceful-degradation fallback produces a value. -/
theorem capnp_vector_to_value_ok (v : VectorData) (h : wellFormedVector v = true) :
    ∃ r, capnp_vector_to_value v = .ok r := by
  unfold wellFormedVector at h
  unfold capnp_vector_to_value
  by_cases hg : v.valueType = .vectorData ∨ v.valueType = .byteArray
  · rw [if_pos hg] at h ⊢
    by_cases hs : v.vectorElementType = .string
    · rw [if_pos hs] at h ⊢
      cases hu : utf8Decode v.data with
      | none => rw [hu] at h; exact absurd h (by simp)
      | some cs => exact ⟨_, rfl⟩
    · rw [if_neg hs] at h ⊢
      cases hsz : elemByteSize v.vectorElementType with
      | none => rw [hsz] at h; exact absurd h (by simp)
      | some sz =>
          rw [hsz] at h
          have hfb : frombuffer v.vectorElementType v.data =
              some ⟨v.vectorElementType, v.data⟩ := by
            unfold frombuffer
            rw [hsz]
            simp only [decide_eq_true_eq] at h
            simp [h]
          rw [hfb]
          exact ⟨_, rfl⟩
  · rw [if_neg hg] at h ⊢
    cases hp : parse_shf_vector_data_struct v with
    | ok r =>
        exact ⟨r, rfl⟩
    | error e =>
        rw [hp] at h
        cases hsz : elemByteSize v.vectorElementType with
        | none =>
            rw [hsz] at h
            simp at h
        | some sz =>
            rw [hsz] at h
            simp at h
            have hfb : frombuffer v.vectorElementType
                (v.data.drop (get_header_length v)) =
                some ⟨v.vectorElementType, v.data.drop (get_header_length v)⟩ := by
              unfold frombuffer
              rw [hsz]
              simp [h]
            rw [hfb]
            exact ⟨_, rfl⟩

/-- C7 (counterexample): the unknown-top-level-tag case is NOT the only
decode path that is fatal to the caller. Two wire values with the DEFINED
top-level tag `vectorData` on which decode raises: a generic `UINT32`
vector with a three-byte payload (`np.frombuffer` raises `ValueError` on a
buffer that is not a whole number of elements, value.py line 236), and a
generic `STRING` vector whose payload byte `0xFF` is not valid UTF-8
(`raw_data.decode()` raises `UnicodeDecodeError`, value.py line 234). -/
theorem decode_fatal_on_defined_tags :
    capnp_value_to_python_value
        (.vectorDataW ⟨.vectorData, .uint32, 0, [1, 2, 3]⟩) =
      .error (.valueError "buffer size is not a multiple of element size") ∧
      capnp_value_to_python_value (.vectorDataW ⟨.vectorData, .string, 0, [255]⟩) =
        .error (.unicodeDecodeError "invalid utf-8 byte sequence") := by
  refine ⟨by decide, by decide⟩

/-- C7 (amended): decoding a wire value whose top-level tag is outside the
defined variant set fails with the `UnknownWireType` error (a `ValueError`
naming the offending tag), and for WELL-FORMED wire values — those whose
vector payloads are consistent with the declared element type (valid UTF-8
for `STRING`, a whole number of elements otherwise) — it is the only decode
path that fails: every defined variant then decodes successfully. Malformed
vector payloads also raise (`ValueError` from `np.frombuffer`,
`UnicodeDecodeError` from `bytes.decode`), per the counterexample. -/
theorem unknown_wire_type_is_the_only_fatal_decode (w : WireValue)
    (hwf : wellFormedWire w = true) :
    (∀ t, w = .unknown t →
      capnp_value_to_python_value w =
        .error (.valueError ("Unknown capnp type: " ++ t))) ∧
      ((∃ e, capnp_value_to_python_value w = .error e) ↔ ∃ t, w = .unknown t) := by
  cases w with
  | vectorDataW v =>
      obtain ⟨r, hr⟩ := capnp_vector_to_value_ok v (by simpa [wellFormedWire] using hwf)
      refine ⟨fun t ht => by simp at ht, ?_⟩
      constructor
      · rintro ⟨e, he⟩
        rw [show capnp_value_to_python_value (.vectorDataW v) = capnp_vector_to_value v
          from rfl, hr] at he
        exact absurd he (by simp)
      · rintro ⟨t, ht⟩
        exact absurd ht (by simp)
  | unknown t =>
      refine ⟨fun t' ht' => by cases ht'; rfl, ?_⟩
      constructor
      · intro _
        exact ⟨t, rfl⟩
      · rintro ⟨t', ht'⟩
        exact ⟨.valueError ("Unknown capnp type: " ++ t), rfl⟩
  | int64 n =>
      refine ⟨fun t ht => by simp at ht, ?_⟩
      constructor
      · rintro ⟨e, he⟩
        exact absurd he (by simp [capnp_value_to_python_value])
      · rintro ⟨t, ht⟩
        exact absurd ht (by simp)
  | double b =>
      refine ⟨fun t ht => by simp at ht, ?_⟩
      constructor
      · rintro ⟨e, he⟩
        exact absurd he (by simp [capnp_value_to_python_value])
      · rintro ⟨t, ht⟩
        exact absurd ht (by simp)
  | complexW re im =>
      refine ⟨fun t ht => by simp at ht, ?_⟩
      constructor
      · rintro ⟨e, he⟩
        exact absurd he (by simp [capnp_value_to_python_value])
      · rintro ⟨t, ht⟩
        exact absurd ht (by simp)
  | stringW s =>
      refine ⟨fun t ht => by simp at ht, ?_⟩
      constructor
      · rintro ⟨e, he⟩
        exact absurd he (by simp [capnp_value_to_python_value])
      · rintro ⟨t, ht⟩
        exact absurd ht (by simp)
  | cntSampleW c =>
      refine ⟨fun t ht => by simp at ht, ?_⟩
      constructor
      · rintro ⟨e, he⟩
        exact absurd he (by simp [capnp_value_to_python_value])
      · rintro ⟨t, ht⟩
        exact absurd ht (by simp)
  | triggerSampleW t =>
      refine ⟨fun t' ht' => by simp at ht', ?_⟩
      constructor
      · rintro ⟨e, he⟩
        exact absurd he (by simp [capnp_value_to_python_value])
      · rintro ⟨t', ht'⟩
        exact absurd ht' (by simp)
  | noneW =>
      refine ⟨fun t ht => by simp at ht, ?_⟩
      constructor
      · rintro ⟨e, he⟩
        exact absurd he (by simp [capnp_value_to_python_value])
      · rintro ⟨t, ht⟩
        exact absurd ht (by simp)

/-- C7 witness: the tag `"illegal"` (the one
`tests/core/test_annotated_value_from_capnp.py::test_illegal_type` uses) is
well-formed as a wire value and decodes to the `UnknownWireType` error. -/
theorem unknown_wire_type_is_the_only_fatal_decode_witness :
    wellFormedWire (.unknown "illegal") = true ∧
      capnp_value_to_python_value (.unknown "illegal") =
        .error (.valueError "Unknown capnp type: illegal") :=
  ⟨rfl, (unknown_wire_type_is_the_only_fatal_decode (.unknown "illegal") rfl).1
    "illegal" rfl⟩

/-- C8: for every state, every registered path `p` and every supported
value `v`, performing `set` with value `v` at `p` and then `get p` returns
an annotated value whose value field equals `v` — the store mutation
happens first and `get` reads exactly the stored value. -/
theorem set_then_get_returns_value (s : MockState) (av : AnnotatedValue)
    (h : av.path ∈ s.paths_to_info) :
    ((get (set s av).1 av.path).2).value = av.value := by
  rw [set_fst]
  simp [get, memGet_memSet_self]

/-- C8 witness: on the one-path registry, setting `/a/b` to `5` and reading
it back yields `5`. -/
theorem set_then_get_returns_value_witness :
    "/a/b" ∈ smallState.paths_to_info ∧
      ((get (set smallState ⟨.int64 5, "/a/b", none, none⟩).1 "/a/b").2).value =
        .int64 5 :=
  ⟨by decide,
    set_then_get_returns_value smallState ⟨.int64 5, "/a/b", none, none⟩ (by decide)⟩

/-- C9: when the capnp response encodes successfully but one or more
subscriber deliveries fail, `set` leaves the new value in the store (the
mutation is not rolled back) and returns the first failure among the
delivery results of ALL subscribed handles — every delivery is attempted
(the result list ranges over every registered handle) before the error is
surfaced. -/
theorem delivery_failure_keeps_mutation_and_surfaces_first_error
    (s : MockState) (av : AnnotatedValue) (w : WireDict) (e : Err)
    (hw : value_from_python_types_dict { av with timestamp := some s.clock } = .ok w)
    (he : firstError ((handlesGet s.handles av.path).map
      (fun h => sendValues h ⟨w, av.path, some s.clock⟩)) = some e) :
    set s av =
      ({ s with memory := memSet s.memory av.path av.value, clock := s.clock + 1 },
        .error e) := by
  simp only [set, hw, he]

/-- C9 witness: with one failing subscriber on `/a/b`, setting `/a/b` to
`5` stores the value and reports that subscriber's delivery error. -/
theorem delivery_failure_keeps_mutation_and_surfaces_first_error_witness :
    value_from_python_types_dict
        ({ (⟨.int64 5, "/a/b", none, none⟩ : AnnotatedValue) with
          timestamp := some failState.clock }) = .ok (.int64 5) ∧
      firstError ((handlesGet failState.handles "/a/b").map
        (fun h => sendValues h ⟨.int64 5, "/a/b", some failState.clock⟩)) =
        some (.deliveryError 7) ∧
      set failState ⟨.int64 5, "/a/b", none, none⟩ =
        ({ failState with memory := [("/a/b", .int64 5)], clock := 1 },
          .error (.deliveryError 7)) :=
  ⟨by decide, by decide,
    delivery_failure_keeps_mutation_and_surfaces_first_error failState
      ⟨.int64 5, "/a/b", none, none⟩ (.int64 5) (.deliveryError 7)
      (by decide) (by decide)⟩

/-- C10: a successful `set` acknowledges exactly the value and path it was
given, with the timestamp freshly drawn from the clock during the call —
never the previously stored value. -/
theorem set_ack_reflects_new_value_and_fresh_timestamp (s : MockState)
    (av : AnnotatedValue) (r : AnnotatedValue) (h : (set s av).2 = .ok r) :
    r.value = av.value ∧ r.path = av.path ∧ r.timestamp = some s.clock := by
  simp only [set] at h
  split at h
  · exact absurd h (by simp)
  · split at h
    · exact absurd h (by simp)
    · simp only [Except.ok.injEq] at h
      subst h
      exact ⟨rfl, rfl, rfl⟩

/-- C10 witness: on a store where `/a/b` previously held `1`, a successful
`set` of `5` acknowledges `5` (not the old value) at the calling clock. -/
theorem set_ack_reflects_new_value_and_fresh_timestamp_witness :
    (set { smallState with memory := [("/a/b", .int64 1)], clock := 3 }
        ⟨.int64 5, "/a/b", none, none⟩).2 = .ok ⟨.int64 5, "/a/b", some 3, none⟩ ∧
      ((⟨.int64 5, "/a/b", some 3, none⟩ : AnnotatedValue).value = .int64 5 ∧
        (⟨.int64 5, "/a/b", some 3, none⟩ : AnnotatedValue).path = "/a/b" ∧
        (⟨.int64 5, "/a/b", some 3, none⟩ : AnnotatedValue).timestamp = some 3) :=
  ⟨by decide,
    set_ack_reflects_new_value_and_fresh_timestamp
      { smallState with memory := [("/a/b", .int64 1)], clock := 3 }
      ⟨.int64 5, "/a/b", none, none⟩ ⟨.int64 5, "/a/b", some 3, none⟩ (by decide)⟩

end LabOne
